import Mathlib

/-!
Formal model of the live scoring-event inference and point-reconciliation
engine of the fpl-buddy firmware (src/src/main.cpp), shallowly embedded in
Lean 4.  C++ `int` fields are modelled as `Int`; C++ integer division
truncates toward zero, which is `Int.tdiv`.  Only the fields the engine
reads are modelled; display-only fields (names, icons, timestamps) are
plumbing and carry no scoring semantics.
-/

set_option autoImplicit false

namespace FplBuddy

/-- Cumulative per-player statistics for one poll, mirroring
`TeamPick::LiveStats` in src/src/main.cpp, including the optional
per-category point attributions parsed from the FPL live explain payload. -/
structure LiveStats where
  totalPoints : Int := 0
  minutes : Int := 0
  goalsScored : Int := 0
  assists : Int := 0
  cleanSheets : Int := 0
  goalsConceded : Int := 0
  ownGoals : Int := 0
  penaltiesSaved : Int := 0
  penaltiesMissed : Int := 0
  yellowCards : Int := 0
  redCards : Int := 0
  saves : Int := 0
  bonus : Int := 0
  defensiveContributions : Int := 0
  brMinutesPts : Int := 0
  brGoalsPts : Int := 0
  brAssistsPts : Int := 0
  brCleanSheetPts : Int := 0
  brGoalsConcededPts : Int := 0
  brOwnGoalPts : Int := 0
  brPenSavedPts : Int := 0
  brPenMissedPts : Int := 0
  brYellowPts : Int := 0
  brRedPts : Int := 0
  brSavesPts : Int := 0
  brBonusPts : Int := 0
  brDefContribPts : Int := 0
  brOtherPts : Int := 0
  deriving DecidableEq

/-- The engine-relevant part of `TeamPick`: identity, lineup multiplier,
role classification (1=GK, 2=DEF, 3=MID, 4=FWD) and the live stats. -/
structure TeamPick where
  elementId : Int := 0
  multiplier : Int := 0
  elementType : Int := 0
  live : LiveStats := {}
  deriving DecidableEq

/-- Goal points by role, mirroring `goalPointsForElementType`. -/
def goalPointsForElementType (elementType : Int) : Int :=
  if elementType = 1 then 10
  else if elementType = 2 then 6
  else if elementType = 3 then 5
  else if elementType = 4 then 4
  else 0

/-- Clean-sheet points by role, mirroring `cleanSheetPointsForElementType`. -/
def cleanSheetPointsForElementType (elementType : Int) : Int :=
  if elementType = 1 ∨ elementType = 2 then 4
  else if elementType = 3 then 1
  else 0

/-- Defensive-contribution threshold by role, mirroring
`defensiveContributionThresholdForElementType`. -/
def defensiveContributionThresholdForElementType (elementType : Int) : Int :=
  if elementType = 2 then 10
  else if elementType = 3 ∨ elementType = 4 then 12
  else 0

/-- Saves-per-point threshold by role, mirroring `savesThresholdForElementType`. -/
def savesThresholdForElementType (elementType : Int) : Int :=
  if elementType = 1 then 3 else 0

/-- Expected cumulative points excluding bonus, mirroring
`computeExpectedPointsExcludingBonus`; the second component is the `okOut`
flag, false exactly when the role is unrecognized. -/
def computeExpectedPointsExcludingBonus (p : TeamPick) : Int × Bool :=
  if p.elementType < 1 ∨ 4 < p.elementType then
    (0, false)
  else
    let appearancePts : Int := if 0 < p.live.minutes then 1 else 0
    let sixtyPts : Int := if 60 ≤ p.live.minutes then 1 else 0
    let gkPts : Int :=
      if p.elementType = 1 then Int.tdiv p.live.saves 3 + 5 * p.live.penaltiesSaved else 0
    let concededPts : Int :=
      if p.elementType = 1 ∨ p.elementType = 2 then Int.tdiv p.live.goalsConceded 2 else 0
    let dcThreshold := defensiveContributionThresholdForElementType p.elementType
    let dcPts : Int :=
      if 0 < dcThreshold then 2 * Int.tdiv p.live.defensiveContributions dcThreshold else 0
    (appearancePts + sixtyPts
      + goalPointsForElementType p.elementType * p.live.goalsScored
      + 3 * p.live.assists
      + cleanSheetPointsForElementType p.elementType * p.live.cleanSheets
      + gkPts - concededPts
      - 2 * p.live.penaltiesMissed - p.live.yellowCards - 3 * p.live.redCards
      - 2 * p.live.ownGoals + dcPts, true)

/-- Result triple of the bonus resolver: the effective points together with
the two out-flags of `adjustedLivePointsWithProjectedBonus`. -/
structure BonusResolution where
  effectivePoints : Int
  projected : Bool
  alreadyIncluded : Bool
  deriving DecidableEq

/-- Bonus resolver, mirroring `adjustedLivePointsWithProjectedBonus`.  The
two Bool arguments are the values held by the caller's out-parameters
before the call; the C++ body overwrites both on entry, so they are dead
inputs — kept to state that the function carries no state across calls. -/
def adjustedLivePointsWithProjectedBonus (p : TeamPick)
    (projectedBonusAddedIn bonusAlreadyIncludedIn : Bool) : BonusResolution :=
  if p.live.bonus ≤ 0 then
    { effectivePoints := p.live.totalPoints, projected := false, alreadyIncluded := true }
  else
    let expected := computeExpectedPointsExcludingBonus p
    if expected.2 = false then
      { effectivePoints := p.live.totalPoints, projected := false, alreadyIncluded := true }
    else
      let noBonus := expected.1
      let withBonus := noBonus + p.live.bonus
      if p.live.totalPoints = withBonus then
        { effectivePoints := p.live.totalPoints, projected := false, alreadyIncluded := true }
      else if p.live.totalPoints = noBonus then
        { effectivePoints := p.live.totalPoints + p.live.bonus,
          projected := true, alreadyIncluded := false }
      else
        let distNoBonus := |p.live.totalPoints - noBonus|
        let distWithBonus := |p.live.totalPoints - withBonus|
        if distNoBonus ≤ distWithBonus then
          { effectivePoints := p.live.totalPoints + p.live.bonus,
            projected := true, alreadyIncluded := false }
        else
          { effectivePoints := p.live.totalPoints, projected := false, alreadyIncluded := true }

/-- The resolver as invoked at its call sites, where both out-flags are
freshly initialized to false before the call. -/
def resolveBonus (p : TeamPick) : BonusResolution :=
  adjustedLivePointsWithProjectedBonus p false false

/-- The scoring-relevant payload of a published UI event, mirroring the
fields of `UiEventItem` that `notifyEvent` computes from the snapshot
(icon, names and timestamp are presentation-only and omitted). -/
structure UiEventItem where
  label : String
  delta : Int
  totalBefore : Int
  totalAfter : Int
  deriving DecidableEq

/-- Event construction, mirroring `notifyEvent`: the after-total is the
current snapshot's cumulative total and the before-total is derived from
it by subtracting this event's own delta. -/
def notifyEvent (pick : TeamPick) (pts : Int) (what : String) : UiEventItem :=
  { label := what
    delta := pts
    totalBefore := pick.live.totalPoints - pts
    totalAfter := pick.live.totalPoints }

/-- The `emitDiff` lambda of `detectAndNotifyPointChangesFromBreakdown`:
emit one event when a category's breakdown points changed. -/
def emitDiff (p : TeamPick) (prevPts currPts : Int) (label : String) : List UiEventItem :=
  if currPts - prevPts ≠ 0 then [notifyEvent p (currPts - prevPts) label] else []

/-- The special-cased minutes handling of
`detectAndNotifyPointChangesFromBreakdown`: a positive minutes-category
delta is consumed point by point — first the appearance transition, then
the 60-minute transition, then any remainder under the 60+ label; a
negative delta is emitted verbatim. -/
def breakdownMinutesEvents (p : TeamPick) (prev curr : LiveStats) : List UiEventItem :=
  let d := curr.brMinutesPts - prev.brMinutesPts
  if 0 < d then
    let step1 : List UiEventItem × Int :=
      if prev.minutes < 1 ∧ 1 ≤ curr.minutes ∧ 0 < d then
        ([notifyEvent p 1 ("PLAYING!")], d - 1)
      else ([], d)
    let step2 : List UiEventItem × Int :=
      if prev.minutes < 60 ∧ 60 ≤ curr.minutes ∧ 0 < step1.2 then
        (step1.1 ++ [notifyEvent p 1 ("60+ mins!")], step1.2 - 1)
      else step1
    if step2.2 ≠ 0 then step2.1 ++ [notifyEvent p step2.2 ("60+ mins!")] else step2.1
  else if d < 0 then [notifyEvent p d ("60+ mins!")]
  else []

/-- Result of one reconciliation step for one tracked player: the emitted
events, the snapshot retained as the new baseline, and the unattributed
residual (total-points delta minus the sum of emitted deltas), which the
firmware logs over serial when nonzero. -/
structure StepResult where
  events : List UiEventItem
  newLive : LiveStats
  residual : Int
  deriving DecidableEq

/-- Mode A reconciliation for one tracked player, mirroring the
per-player body of `detectAndNotifyPointChangesFromBreakdown` after the
baseline lookup: no events when the total is unchanged, otherwise one
event per changed breakdown category, in the source's fixed order. -/
def breakdownStep (p : TeamPick) (prev : LiveStats) : StepResult :=
  let curr := p.live
  let pointDelta := curr.totalPoints - prev.totalPoints
  if pointDelta = 0 then { events := [], newLive := curr, residual := 0 }
  else
    let events :=
      breakdownMinutesEvents p prev curr
      ++ emitDiff p prev.brGoalsPts curr.brGoalsPts ("GOAL!")
      ++ emitDiff p prev.brAssistsPts curr.brAssistsPts ("ASSIST!")
      ++ emitDiff p prev.brCleanSheetPts curr.brCleanSheetPts ("CLEAN SHEET!")
      ++ emitDiff p prev.brSavesPts curr.brSavesPts ("SAVE BONUS!")
      ++ emitDiff p prev.brPenSavedPts curr.brPenSavedPts ("PEN SAVE!")
      ++ emitDiff p prev.brDefContribPts curr.brDefContribPts ("DEF CON!")
      ++ emitDiff p prev.brBonusPts curr.brBonusPts ("BONUS PTS!")
      ++ emitDiff p prev.brGoalsConcededPts curr.brGoalsConcededPts ("goals against")
      ++ emitDiff p prev.brPenMissedPts curr.brPenMissedPts ("PEN MISS!")
      ++ emitDiff p prev.brYellowPts curr.brYellowPts ("YELLOW!")
      ++ emitDiff p prev.brRedPts curr.brRedPts ("RED!")
      ++ emitDiff p prev.brOwnGoalPts curr.brOwnGoalPts ("OWN GOAL!")
      ++ emitDiff p prev.brOtherPts curr.brOtherPts ("other scoring rule")
    let explained := (events.map fun e => e.delta).sum
    { events := events, newLive := curr, residual := pointDelta - explained }

/-- Mode B reconciliation for one tracked player, mirroring the
per-player body of `detectAndNotifyPointChanges` after the baseline
lookup: point contributions are re-inferred from raw counter deltas via
the scoring rule table, in the source's fixed category order. -/
def inferredStep (p : TeamPick) (prev : LiveStats) : StepResult :=
  let curr := p.live
  let pointDelta := curr.totalPoints - prev.totalPoints
  if pointDelta = 0 then { events := [], newLive := curr, residual := 0 }
  else
    let events :=
      (if prev.minutes < 1 ∧ 1 ≤ curr.minutes then [notifyEvent p 1 ("PLAYING!")] else [])
      ++ (if prev.minutes < 60 ∧ 60 ≤ curr.minutes then [notifyEvent p 1 ("60+ mins!")] else [])
      ++ (let goalDiff := curr.goalsScored - prev.goalsScored
          if 0 < goalDiff then
            [notifyEvent p (goalPointsForElementType p.elementType * goalDiff) ("GOAL!")]
          else [])
      ++ (let assistDiff := curr.assists - prev.assists
          if 0 < assistDiff then [notifyEvent p (3 * assistDiff) ("ASSIST!")] else [])
      ++ (let csDiff := curr.cleanSheets - prev.cleanSheets
          if 0 < csDiff then
            let pts := cleanSheetPointsForElementType p.elementType * csDiff
            if pts ≠ 0 then [notifyEvent p pts ("CLEAN SHEET!")] else []
          else [])
      ++ (let savesThreshold := savesThresholdForElementType p.elementType
          if 0 < savesThreshold then
            let chunkDiff := Int.tdiv curr.saves savesThreshold - Int.tdiv prev.saves savesThreshold
            if 0 < chunkDiff then [notifyEvent p chunkDiff ("SAVE BONUS!")] else []
          else [])
      ++ (let psDiff := curr.penaltiesSaved - prev.penaltiesSaved
          if 0 < psDiff then [notifyEvent p (5 * psDiff) ("PEN SAVE!")] else [])
      ++ (let dcThreshold := defensiveContributionThresholdForElementType p.elementType
          if 0 < dcThreshold then
            let chunkDiff := Int.tdiv curr.defensiveContributions dcThreshold
              - Int.tdiv prev.defensiveContributions dcThreshold
            if 0 < chunkDiff then [notifyEvent p (2 * chunkDiff) ("DEF CON!")] else []
          else [])
      ++ (let bonusDiff := curr.bonus - prev.bonus
          if 0 < bonusDiff then [notifyEvent p bonusDiff ("BONUS PTS!")] else [])
      ++ (if p.elementType = 1 ∨ p.elementType = 2 then
            let gcChunkDiff := Int.tdiv curr.goalsConceded 2 - Int.tdiv prev.goalsConceded 2
            if 0 < gcChunkDiff then [notifyEvent p (-gcChunkDiff) ("goals against")] else []
          else [])
      ++ (let pmDiff := curr.penaltiesMissed - prev.penaltiesMissed
          if 0 < pmDiff then [notifyEvent p (-2 * pmDiff) ("PEN MISS!")] else [])
      ++ (let ycDiff := curr.yellowCards - prev.yellowCards
          if 0 < ycDiff then [notifyEvent p (-ycDiff) ("YELLOW!")] else [])
      ++ (let rcDiff := curr.redCards - prev.redCards
          if 0 < rcDiff then [notifyEvent p (-3 * rcDiff) ("RED!")] else [])
      ++ (let ogDiff := curr.ownGoals - prev.ownGoals
          if 0 < ogDiff then [notifyEvent p (-2 * ogDiff) ("OWN GOAL!")] else [])
    let explained := (events.map fun e => e.delta).sum
    { events := events, newLive := curr, residual := pointDelta - explained }

/-- One slot of the engine's retained per-(gameweek, element) state,
mirroring `LastPickState`; the firmware keeps a fixed array of 16 slots. -/
structure LastPickState where
  valid : Bool := false
  gw : Int := 0
  elementId : Int := 0
  live : LiveStats := {}
  deriving DecidableEq

/-- The baseline lookup loop shared by both detect functions: the first
valid slot matching the gameweek and element id, if any. -/
def lookupState (g eid : Int) : List LastPickState → Option LiveStats
  | [] => none
  | s :: rest =>
      if s.valid = true ∧ s.gw = g ∧ s.elementId = eid then some s.live
      else lookupState g eid rest

/-- The first-observation insertion loop shared by both detect functions:
seed the baseline in the first slot that is invalid or belongs to another
gameweek; with no such slot the observation is dropped. -/
def storeFirstObservation (g : Int) (p : TeamPick) : List LastPickState → List LastPickState
  | [] => []
  | s :: rest =>
      if s.valid = false ∨ s.gw ≠ g then
        { valid := true, gw := g, elementId := p.elementId, live := p.live } :: rest
      else s :: storeFirstObservation g p rest

/-- Writing the just-processed snapshot back into the tracked slot
(`state->live = curr` in both detect functions). -/
def updateState (g eid : Int) (live : LiveStats) : List LastPickState → List LastPickState
  | [] => []
  | s :: rest =>
      if s.valid = true ∧ s.gw = g ∧ s.elementId = eid then { s with live := live } :: rest
      else s :: updateState g eid live rest

/-- True when the state table still has a slot the first-observation
insertion can claim (an invalid slot or one from another gameweek). -/
def hasFreeSlot (g : Int) (states : List LastPickState) : Bool :=
  states.any fun s => !s.valid || s.gw ≠ g

/-- Per-player body of `detectAndNotifyPointChangesFromBreakdown` (Mode A):
on first observation seed the baseline and emit nothing, otherwise run the
breakdown reconciliation step and retain the current snapshot. -/
def processPickFromBreakdown (g : Int) (states : List LastPickState) (p : TeamPick) :
    List UiEventItem × List LastPickState :=
  match lookupState g p.elementId states with
  | none => ([], storeFirstObservation g p states)
  | some prev =>
      let r := breakdownStep p prev
      (r.events, updateState g p.elementId r.newLive states)

/-- Per-player body of `detectAndNotifyPointChanges` (Mode B):
on first observation seed the baseline and emit nothing, otherwise run the
inferred reconciliation step and retain the current snapshot. -/
def processPickInferred (g : Int) (states : List LastPickState) (p : TeamPick) :
    List UiEventItem × List LastPickState :=
  match lookupState g p.elementId states with
  | none => ([], storeFirstObservation g p states)
  | some prev =>
      let r := inferredStep p prev
      (r.events, updateState g p.elementId r.newLive states)

/-- Mode A pass over the whole roster in roster order, mirroring
`detectAndNotifyPointChangesFromBreakdown`. -/
def detectAndNotifyPointChangesFromBreakdown (g : Int) (picks : List TeamPick)
    (states : List LastPickState) : List UiEventItem × List LastPickState :=
  picks.foldl
    (fun acc p =>
      let r := processPickFromBreakdown g acc.2 p
      (acc.1 ++ r.1, r.2))
    ([], states)

/-- Mode B pass over the whole roster in roster order, mirroring
`detectAndNotifyPointChanges`. -/
def detectAndNotifyPointChanges (g : Int) (picks : List TeamPick)
    (states : List LastPickState) : List UiEventItem × List LastPickState :=
  picks.foldl
    (fun acc p =>
      let r := processPickInferred g acc.2 p
      (acc.1 ++ r.1, r.2))
    ([], states)

/-- Gameweek total, mirroring `computeGwPointsFromPicks`: accumulate each
pick's bonus-resolved effective points times its lineup multiplier. -/
def computeGwPointsFromPicks (picks : List TeamPick) : Int :=
  picks.foldl (fun acc p => acc + (resolveBonus p).effectivePoints * p.multiplier) 0

/-! ## Shared lemmas -/

lemma computeExpected_ok_of_role (p : TeamPick)
    (hrole : 1 ≤ p.elementType ∧ p.elementType ≤ 4) :
    (computeExpectedPointsExcludingBonus p).2 = true := by
  unfold computeExpectedPointsExcludingBonus
  rw [if_neg (by omega)]

lemma breakdownStep_newLive (p : TeamPick) (prev : LiveStats) :
    (breakdownStep p prev).newLive = p.live := by
  simp only [breakdownStep]
  split <;> rfl

lemma inferredStep_newLive (p : TeamPick) (prev : LiveStats) :
    (inferredStep p prev).newLive = p.live := by
  simp only [inferredStep]
  split <;> rfl

lemma lookup_updateState (g eid : Int) (live : LiveStats) :
    ∀ (states : List LastPickState) (prev : LiveStats),
      lookupState g eid states = some prev →
      lookupState g eid (updateState g eid live states) = some live := by
  intro states
  induction states with
  | nil => intro prev h; simp [lookupState] at h
  | cons s rest ih =>
      intro prev h
      by_cases hc : s.valid = true ∧ s.gw = g ∧ s.elementId = eid
      · simp [updateState, lookupState, hc]
      · have h' : lookupState g eid rest = some prev := by
          simpa [lookupState, hc] using h
        simp [updateState, lookupState, hc, ih _ h']

lemma lookup_storeFirstObservation (g : Int) (p : TeamPick) :
    ∀ states : List LastPickState,
      lookupState g p.elementId states = none →
      hasFreeSlot g states = true →
      lookupState g p.elementId (storeFirstObservation g p states) = some p.live := by
  intro states
  induction states with
  | nil => intro _ hf; simp [hasFreeSlot] at hf
  | cons s rest ih =>
      intro h hf
      by_cases hc : s.valid = false ∨ s.gw ≠ g
      · simp [storeFirstObservation, hc, lookupState]
      · push_neg at hc
        have hv : s.valid = true := by
          cases hb : s.valid
          · exact absurd hb hc.1
          · rfl
        have hg : s.gw = g := hc.2
        have heid : s.elementId ≠ p.elementId := by
          intro he
          simp [lookupState, hv, hg, he] at h
        have h' : lookupState g p.elementId rest = none := by
          simpa [lookupState, hv, hg, heid] using h
        have hf' : hasFreeSlot g rest = true := by
          simpa [hasFreeSlot, hv, hg] using hf
        simp [storeFirstObservation, hv, hg, lookupState, heid, ih h' hf']

/-! ## C3 -/

/-- C3: after a reconciliation pass in either mode over a tracked player,
the retained per-(gameweek, element) state equals the just-processed
current snapshot — unconditionally, so also when the emitted deltas do not
sum to the total-points delta. -/
theorem tracked_state_advances_to_current (g : Int) (states : List LastPickState)
    (p : TeamPick) (prev : LiveStats)
    (h : lookupState g p.elementId states = some prev) :
    lookupState g p.elementId (processPickFromBreakdown g states p).2 = some p.live ∧
    lookupState g p.elementId (processPickInferred g states p).2 = some p.live := by
  constructor
  · simp only [processPickFromBreakdown, h, breakdownStep_newLive]
    exact lookup_updateState g p.elementId p.live states prev h
  · simp only [processPickInferred, h, inferredStep_newLive]
    exact lookup_updateState g p.elementId p.live states prev h

/-- Concrete tracked baseline for the C3 witness. -/
def residualStates : List LastPickState :=
  [{ valid := true, gw := 1, elementId := 42, live := { totalPoints := 0 } }]

/-- Concrete current snapshot for the C3 witness: seven fresh points with
no counter change, so no event explains them. -/
def residualPick : TeamPick :=
  { elementId := 42, elementType := 2, live := { totalPoints := 7 } }

/-- C3 witness: a tracked player whose seven-point jump is entirely
unattributed (Mode B emits nothing, residual 7) still has its retained
state advanced to the current snapshot in both modes. -/
theorem tracked_state_advances_to_current_witness :
    lookupState 1 residualPick.elementId residualStates = some { totalPoints := 0 } ∧
    (inferredStep residualPick { totalPoints := 0 }).events = [] ∧
    (inferredStep residualPick { totalPoints := 0 }).residual = 7 ∧
    lookupState 1 residualPick.elementId
      (processPickFromBreakdown 1 residualStates residualPick).2 = some residualPick.live ∧
    lookupState 1 residualPick.elementId
      (processPickInferred 1 residualStates residualPick).2 = some residualPick.live := by
  refine ⟨by decide, by decide, by decide, ?_, ?_⟩
  · exact (tracked_state_advances_to_current 1 residualStates residualPick
      { totalPoints := 0 } (by decide)).1
  · exact (tracked_state_advances_to_current 1 residualStates residualPick
      { totalPoints := 0 } (by decide)).2

/-! ## C9 -/

/-- C9: in both modes, a tracked player whose cumulative total is
unchanged produces zero events — whatever happened to the raw counters or
breakdown categories — and the current snapshot still replaces the
retained baseline. -/
theorem unchanged_total_emits_nothing (p : TeamPick) (prev : LiveStats)
    (h : p.live.totalPoints = prev.totalPoints) :
    breakdownStep p prev = { events := [], newLive := p.live, residual := 0 } ∧
    inferredStep p prev = { events := [], newLive := p.live, residual := 0 } := by
  have hd : p.live.totalPoints - prev.totalPoints = 0 := sub_eq_zero_of_eq h
  constructor
  · simp [breakdownStep, hd]
  · simp [inferredStep, hd]

/-- Concrete snapshot pair for the C9 witness: minutes, a yellow card and
the minutes breakdown all changed while the total stayed at 5. -/
def unchangedTotalPick : TeamPick :=
  { elementId := 8, elementType := 3
    live := { totalPoints := 5, minutes := 90, yellowCards := 1, brMinutesPts := 2 } }

/-- C9 witness: with counters and breakdown changed but the total fixed at
5, both modes emit nothing and retain the new snapshot. -/
theorem unchanged_total_emits_nothing_witness :
    unchangedTotalPick.live.minutes ≠ (({ totalPoints := 5 } : LiveStats)).minutes ∧
    unchangedTotalPick.live.yellowCards ≠ (({ totalPoints := 5 } : LiveStats)).yellowCards ∧
    breakdownStep unchangedTotalPick { totalPoints := 5 } =
      { events := [], newLive := unchangedTotalPick.live, residual := 0 } ∧
    inferredStep unchangedTotalPick { totalPoints := 5 } =
      { events := [], newLive := unchangedTotalPick.live, residual := 0 } := by
  refine ⟨by decide, by decide, ?_, ?_⟩
  · exact (unchanged_total_emits_nothing unchangedTotalPick { totalPoints := 5 } (by decide)).1
  · exact (unchanged_total_emits_nothing unchangedTotalPick { totalPoints := 5 } (by decide)).2

/-! ## C4 -/

/-- A state table whose 16 slots are all valid entries of the current
gameweek, leaving the first-observation insertion loop nowhere to write. -/
def fullSameGwTable : List LastPickState :=
  List.replicate 16 { valid := true, gw := 1, elementId := 100 }

/-- A roster player not present in that table. -/
def overflowPick : TeamPick :=
  { elementId := 999, elementType := 2, live := { totalPoints := 3 } }

/-- C4 counterexample: with all 16 slots already holding valid entries of
the current gameweek, the first observed snapshot of a new player emits
nothing but is NOT stored — the pair is still absent afterwards, so the
player does not transition to Tracked. -/
theorem first_observation_dropped_when_table_full :
    lookupState 1 overflowPick.elementId fullSameGwTable = none ∧
    processPickFromBreakdown 1 fullSameGwTable overflowPick = ([], fullSameGwTable) ∧
    processPickInferred 1 fullSameGwTable overflowPick = ([], fullSameGwTable) ∧
    lookupState 1 overflowPick.elementId
      (processPickFromBreakdown 1 fullSameGwTable overflowPick).2 = none := by
  decide

/-- C4 (amended): a first observed (gameweek, element) snapshot emits zero
events in both modes; and provided the fixed-size table still has a free
slot — an invalid entry or one from another gameweek — the snapshot is
stored as the baseline, so the pair becomes Tracked.  (With all 16 slots
valid for the same gameweek the observation is silently dropped.) -/
theorem first_observation_seeds_baseline (g : Int) (states : List LastPickState)
    (p : TeamPick)
    (hnew : lookupState g p.elementId states = none)
    (hfree : hasFreeSlot g states = true) :
    processPickFromBreakdown g states p = ([], storeFirstObservation g p states) ∧
    processPickInferred g states p = ([], storeFirstObservation g p states) ∧
    lookupState g p.elementId (storeFirstObservation g p states) = some p.live := by
  refine ⟨?_, ?_, lookup_storeFirstObservation g p states hnew hfree⟩
  · simp only [processPickFromBreakdown, hnew]
  · simp only [processPickInferred, hnew]

/-- Concrete state table for the C4 witness: one empty slot. -/
def seedStates : List LastPickState := [{}]

/-- Concrete first-time player for the C4 witness. -/
def seedPick : TeamPick :=
  { elementId := 7, elementType := 1, live := { totalPoints := 1, minutes := 13 } }

/-- C4 witness: with a free slot, the first observation of element 7 emits
nothing in either mode and afterwards the pair is tracked with exactly the
observed snapshot. -/
theorem first_observation_seeds_baseline_witness :
    lookupState 5 seedPick.elementId seedStates = none ∧
    hasFreeSlot 5 seedStates = true ∧
    processPickFromBreakdown 5 seedStates seedPick = ([], storeFirstObservation 5 seedPick seedStates) ∧
    processPickInferred 5 seedStates seedPick = ([], storeFirstObservation 5 seedPick seedStates) ∧
    lookupState 5 seedPick.elementId (storeFirstObservation 5 seedPick seedStates) =
      some seedPick.live := by
  refine ⟨by decide, by decide, ?_, ?_, ?_⟩
  · exact (first_observation_seeds_baseline 5 seedStates seedPick (by decide) (by decide)).1
  · exact (first_observation_seeds_baseline 5 seedStates seedPick (by decide) (by decide)).2.1
  · exact (first_observation_seeds_baseline 5 seedStates seedPick (by decide) (by decide)).2.2

/-! ## C8 -/

/-- C8: the published gameweek total is exactly the sum, over the roster,
of each pick's bonus-resolved effective points times its lineup
multiplier — a pure function of the current picks alone, recomputed from
scratch and independent of the engine's event list and state table. -/
theorem gw_total_is_roster_sum (picks : List TeamPick) :
    computeGwPointsFromPicks picks =
      (picks.map fun p => (resolveBonus p).effectivePoints * p.multiplier).sum := by
  suffices h : ∀ (l : List TeamPick) (acc : Int),
      l.foldl (fun a q => a + (resolveBonus q).effectivePoints * q.multiplier) acc
        = acc + (l.map fun p => (resolveBonus p).effectivePoints * p.multiplier).sum by
    simpa [computeGwPointsFromPicks] using h picks 0
  intro l
  induction l with
  | nil => intro acc; simp
  | cons q rest ih => intro acc; simp [ih, add_assoc]


lemma notifyEvent_consistent (p : TeamPick) (pts : Int) (lbl : String) :
    (notifyEvent p pts lbl).totalAfter = p.live.totalPoints ∧
    (notifyEvent p pts lbl).totalBefore =
      (notifyEvent p pts lbl).totalAfter - (notifyEvent p pts lbl).delta := by
  exact ⟨rfl, rfl⟩

lemma forall_consistent_breakdownMinutes (p : TeamPick) (prev curr : LiveStats) :
    ∀ e ∈ breakdownMinutesEvents p prev curr,
      e.totalAfter = p.live.totalPoints ∧ e.totalBefore = e.totalAfter - e.delta := by
  intro e he
  simp only [breakdownMinutesEvents] at he
  split_ifs at he <;>
    simp only [List.mem_append, List.mem_singleton, List.not_mem_nil, or_false, false_or] at he
  all_goals rcases he with (rfl | rfl) | rfl <;> exact ⟨rfl, rfl⟩

lemma forall_consistent_inferredStep (p : TeamPick) (prev : LiveStats) :
    ∀ e ∈ (inferredStep p prev).events,
      e.totalAfter = p.live.totalPoints ∧ e.totalBefore = e.totalAfter - e.delta := by
  intro e he
  simp only [inferredStep] at he
  split at he
  · simp at he
  · simp only [List.mem_append, or_assoc] at he
    rcases he with he | he | he | he | he | he | he | he | he | he | he | he | he | he <;>
      (split_ifs at he <;>
        simp only [List.mem_singleton, List.not_mem_nil] at he <;>
        subst he <;> exact ⟨rfl, rfl⟩)

lemma forall_consistent_breakdownStep (p : TeamPick) (prev : LiveStats) :
    ∀ e ∈ (breakdownStep p prev).events,
      e.totalAfter = p.live.totalPoints ∧ e.totalBefore = e.totalAfter - e.delta := by
  intro e he
  simp only [breakdownStep] at he
  split at he
  · simp at he
  · simp only [List.mem_append, or_assoc] at he
    rcases he with he | he | he | he | he | he | he | he | he | he | he | he | he | he
    · exact forall_consistent_breakdownMinutes p prev p.live e he
    all_goals
      (simp only [emitDiff] at he
       split_ifs at he <;>
         simp only [List.mem_singleton, List.not_mem_nil] at he <;>
         subst he <;> exact ⟨rfl, rfl⟩)


/-- C10: every event emitted by a reconciliation step, in either mode,
reports the current snapshot's cumulative total as its after-total and
derives its before-total by subtracting its own delta, so events emitted
together in one pass do not chain their before/after totals. -/
theorem events_report_final_total (p : TeamPick) (prev : LiveStats) (e : UiEventItem)
    (he : e ∈ (breakdownStep p prev).events ∨ e ∈ (inferredStep p prev).events) :
    e.totalAfter = p.live.totalPoints ∧ e.totalBefore = e.totalAfter - e.delta := by
  rcases he with h | h
  · exact forall_consistent_breakdownStep p prev e h
  · exact forall_consistent_inferredStep p prev e h

/-- Concrete two-event pass for the C10 witness. -/
def twoEventPick : TeamPick :=
  { elementId := 3, elementType := 2, live := { minutes := 75, totalPoints := 2 } }

/-- C10 witness: in the two-event Mode B pass for `twoEventPick`, the
second event carries the final total 2 as its after-total and before-total
1 derived from its own delta. -/
theorem events_report_final_total_witness :
    ((notifyEvent twoEventPick 1 ("60+ mins!")) ∈ (breakdownStep twoEventPick {}).events ∨
      (notifyEvent twoEventPick 1 ("60+ mins!")) ∈ (inferredStep twoEventPick {}).events) ∧
    (notifyEvent twoEventPick 1 ("60+ mins!")).totalAfter = twoEventPick.live.totalPoints ∧
    (notifyEvent twoEventPick 1 ("60+ mins!")).totalBefore =
      (notifyEvent twoEventPick 1 ("60+ mins!")).totalAfter
        - (notifyEvent twoEventPick 1 ("60+ mins!")).delta := by
  refine ⟨Or.inr (by decide), ?_⟩
  exact events_report_final_total twoEventPick {} _ (Or.inr (by decide))

/-- C5: a tracked defender going from 0 to 75 minutes with a +2 minutes
breakdown delta (and a matching +2 total) emits exactly the appearance
event then the 60-plus event, each +1, in that order (Mode A); the same
unaccompanied minutes transition in Mode B emits the same two events. -/
theorem minutes_decomposition (prev : LiveStats) (pA pB : TeamPick)
    (hAtype : pA.elementType = 2) (hBtype : pB.elementType = 2)
    (hmin : prev.minutes = 0)
    (hA : pA.live = { prev with
                        minutes := 75
                        totalPoints := prev.totalPoints + 2
                        brMinutesPts := prev.brMinutesPts + 2 })
    (hB : pB.live = { prev with
                        minutes := 75
                        totalPoints := prev.totalPoints + 2 }) :
    (breakdownStep pA prev).events =
      [notifyEvent pA 1 ("PLAYING!"), notifyEvent pA 1 ("60+ mins!")] ∧
    (inferredStep pB prev).events =
      [notifyEvent pB 1 ("PLAYING!"), notifyEvent pB 1 ("60+ mins!")] := by
  constructor
  · simp only [breakdownStep, hA]
    norm_num [breakdownMinutesEvents, emitDiff, hmin]
  · simp only [inferredStep, hB]
    norm_num [hmin, hBtype, savesThresholdForElementType,
      defensiveContributionThresholdForElementType]


/-- Concrete Mode A pick for the C5 witness. -/
def minutesPickA : TeamPick :=
  { elementId := 5, elementType := 2
    live := { minutes := 75, totalPoints := 2, brMinutesPts := 2 } }

/-- Concrete Mode B pick for the C5 witness. -/
def minutesPickB : TeamPick :=
  { elementId := 5, elementType := 2, live := { minutes := 75, totalPoints := 2 } }

/-- C5 witness: from a fresh zero baseline, the 0 to 75 minute transition
emits exactly the appearance event then the 60-plus event in both modes. -/
theorem minutes_decomposition_witness :
    (breakdownStep minutesPickA ({} : LiveStats)).events =
      [notifyEvent minutesPickA 1 ("PLAYING!"), notifyEvent minutesPickA 1 ("60+ mins!")] ∧
    (inferredStep minutesPickB ({} : LiveStats)).events =
      [notifyEvent minutesPickB 1 ("PLAYING!"), notifyEvent minutesPickB 1 ("60+ mins!")] :=
  minutes_decomposition {} minutesPickA minutesPickB rfl rfl rfl (by decide) (by decide)

/-! ## C1 -/

/-- C1 counterexample: the claim's goal-points table assigns a goalkeeper
goal 6 points, but `goalPointsForElementType` maps role 1 to 10. -/
theorem goalPoints_gk_not_six : ¬ goalPointsForElementType 1 = 6 := by decide

/-- C1 (amended): the goal-points table maps role 1 (GK) to 10 — not 6 —
role 2 (DEF) to 6, role 3 (MID) to 5 and role 4 (FWD) to 4; accordingly in
Mode B a forward's goal delta of 1 contributes exactly +4 and a defender's
exactly +6. -/
theorem goalPoints_table_and_mode_b :
    goalPointsForElementType 1 = 10 ∧ goalPointsForElementType 2 = 6 ∧
    goalPointsForElementType 3 = 5 ∧ goalPointsForElementType 4 = 4 ∧
    ((inferredStep { elementType := 4, live := { goalsScored := 1, totalPoints := 4 } }
        {}).events.map fun e => (e.delta, e.label)) = [((4 : Int), "GOAL!")] ∧
    ((inferredStep { elementType := 2, live := { goalsScored := 1, totalPoints := 6 } }
        {}).events.map fun e => (e.delta, e.label)) = [((6 : Int), "GOAL!")] := by
  decide

/-! ## C2 -/

/-- C2: when bonus is positive, the role is recognized, and the reported
total matches neither the reconstructed bonus-free total nor that total
plus bonus, the resolver projects the bonus additively exactly when the
bonus-free candidate is at least as close to the reported total (ties
favor projecting), and otherwise treats the bonus as already included. -/
theorem bonus_resolver_heuristic (p : TeamPick)
    (hb : 0 < p.live.bonus)
    (hrole : 1 ≤ p.elementType ∧ p.elementType ≤ 4)
    (hne1 : p.live.totalPoints ≠ (computeExpectedPointsExcludingBonus p).1)
    (hne2 : p.live.totalPoints ≠ (computeExpectedPointsExcludingBonus p).1 + p.live.bonus) :
    resolveBonus p =
      if |p.live.totalPoints - (computeExpectedPointsExcludingBonus p).1|
          ≤ |p.live.totalPoints - ((computeExpectedPointsExcludingBonus p).1 + p.live.bonus)| then
        { effectivePoints := p.live.totalPoints + p.live.bonus,
          projected := true, alreadyIncluded := false }
      else
        { effectivePoints := p.live.totalPoints, projected := false, alreadyIncluded := true } := by
  have hok := computeExpected_ok_of_role p hrole
  unfold resolveBonus adjustedLivePointsWithProjectedBonus
  rw [if_neg (not_le.mpr hb)]
  simp only [hok, Bool.true_eq_false, if_false, if_neg hne2, if_neg hne1]

/-- Concrete tie-break instance for C2: defender with bonus-free total 6,
bonus 2, reported total 7 — equidistant, so the bonus is projected and the
effective total is 9. -/
def tieBreakPick : TeamPick :=
  { elementType := 2, live := { totalPoints := 7, minutes := 75, cleanSheets := 1, bonus := 2 } }

/-- C2 witness: the tie-break scenario satisfies every hypothesis of the
heuristic theorem and yields effective points 9 with the bonus projected. -/
theorem bonus_resolver_heuristic_witness :
    (0 : Int) < tieBreakPick.live.bonus ∧
    (computeExpectedPointsExcludingBonus tieBreakPick).1 = 6 ∧
    resolveBonus tieBreakPick =
      { effectivePoints := 9, projected := true, alreadyIncluded := false } := by
  refine ⟨by decide, by decide, ?_⟩
  rw [bonus_resolver_heuristic tieBreakPick (by decide) (by decide) (by decide) (by decide)]
  decide

/-! ## C6 -/

/-- C6: the bonus resolver is deterministic and carries no state between
calls: its result does not depend on the values left in the caller's
out-parameters by any earlier invocation, so two invocations on the same
snapshot and role yield identical triples. -/
theorem bonus_resolver_stateless (p : TeamPick) (a b a2 b2 : Bool) :
    adjustedLivePointsWithProjectedBonus p a b = adjustedLivePointsWithProjectedBonus p a2 b2 :=
  rfl

/-! ## C7 -/

/-- C7: for an unrecognized role (element type below 1 or above 4) the
expected-points reconstruction reports ok = false, and the resolver with a
positive bonus falls back to the raw reported total with the bonus treated
as already included, never projecting it. -/
theorem unknown_role_fallback (p : TeamPick)
    (hrole : p.elementType < 1 ∨ 4 < p.elementType) (hb : 0 < p.live.bonus) :
    (computeExpectedPointsExcludingBonus p).2 = false ∧
    resolveBonus p =
      { effectivePoints := p.live.totalPoints, projected := false, alreadyIncluded := true } := by
  have hok : (computeExpectedPointsExcludingBonus p).2 = false := by
    unfold computeExpectedPointsExcludingBonus
    rw [if_pos hrole]
  refine ⟨hok, ?_⟩
  unfold resolveBonus adjustedLivePointsWithProjectedBonus
  rw [if_neg (not_le.mpr hb)]
  simp only [hok, if_true]

/-- Concrete instance for C7: element type 0 with a positive bonus. -/
def unknownRolePick : TeamPick :=
  { elementType := 0, live := { totalPoints := 3, bonus := 1, minutes := 30 } }

/-- C7 witness: the unknown-role pick satisfies both hypotheses and the
resolver returns its raw total of 3 unchanged. -/
theorem unknown_role_fallback_witness :
    (unknownRolePick.elementType < 1 ∨ 4 < unknownRolePick.elementType) ∧
    (0 : Int) < unknownRolePick.live.bonus ∧
    (computeExpectedPointsExcludingBonus unknownRolePick).2 = false ∧
    resolveBonus unknownRolePick =
      { effectivePoints := 3, projected := false, alreadyIncluded := true } := by
  refine ⟨by decide, by decide, ?_, ?_⟩
  · exact (unknown_role_fallback unknownRolePick (by decide) (by decide)).1
  · exact (unknown_role_fallback unknownRolePick (by decide) (by decide)).2

end FplBuddy
